import Mathlib

/-!
Verification of the AC client/server microgrid control firmware
(TWIST/Microgrid/AC_client_server/main.cpp).

The control core is embedded shallowly:
* the client role (measurement validation, frame reception, the critical-task
  run/idle branches, the record buffer) is modelled over the rationals, so
  every definition is executable;
* the server role (which evaluates a sine) is modelled over the reals;
* the PR regulator (pr.h, from the OwnTech control library, not part of this
  repository's sources) is modelled from the specification, parametrised over
  the scalar field so both roles share one model.

Machine floats are idealised as exact scalars; `uint8_t` status bytes are
naturals (all frame bytes produced by the program are below 256), counters are
naturals.
-/

/-- Parameters of the PR regulator, mirroring the constructor
`PrParams(Ts, Kp, Kr, w0, phi, lower_bound, upper_bound)`. -/
structure PrParams (α : Type) where
  Ts : α
  Kp : α
  Kr : α
  w0 : α
  phi : α
  low : α
  high : α

/-- Internal oscillator-bank state of the PR regulator: two orthogonal
resonant integrator states. -/
structure PrState (α : Type) where
  u1 : α
  u2 : α

/-- Modelled from the spec: the PR regulator implementation (pr.h, OwnTech
control library) is not under src. Section 4.1 of the spec describes
`step(reference, measurement) -> correction` as one discrete-time update of a
proportional + resonant (narrow-band integrator tuned to `w0`) controller whose
return value is clamped to `[low, high]`. The resonant pair `(u1, u2)` below is
a forward-Euler discretisation of the resonator; the output clamp is the
contractual part used by the claims. -/
def Pr.step {α : Type} [LinearOrderedField α] (p : PrParams α) (s : PrState α)
    (ref meas : α) : α × PrState α :=
  let e := ref - meas
  let u1 := s.u1 + p.Ts * (p.Kr * e - p.w0 * s.u2)
  let u2 := s.u2 + p.Ts * (p.w0 * s.u1)
  let raw := p.Kp * e + u1
  (max p.low (min p.high raw), ⟨u1, u2⟩)

/-- The serial-interface modes of the converter
(`enum serial_interface_menu_mode`). -/
inductive Mode where
| IDLEMODE
| POWERMODE
deriving DecidableEq, Repr

/-- The five held measurement values
(`I1_low_value, V1_low_value, V2_low_value, I2_low_value, V_high`). -/
structure Meas (α : Type) where
  I1_low : α
  V1_low : α
  V2_low : α
  I2_low : α
  V_high : α
deriving DecidableEq, Repr

/-- The measurement-refresh prologue of `loop_critical_task` (lines 296-314):
each of the four low-side channels takes the fresh sample only when it lies in
the open window `(-10000, 10000)`; the high-side voltage takes the fresh sample
whenever it differs from `-10000`. -/
def update_meas {α : Type} [LinearOrderedField α] (raw held : Meas α) : Meas α :=
  { I1_low := if raw.I1_low < 10000 ∧ -10000 < raw.I1_low then raw.I1_low else held.I1_low
    V1_low := if raw.V1_low < 10000 ∧ -10000 < raw.V1_low then raw.V1_low else held.V1_low
    V2_low := if raw.V2_low < 10000 ∧ -10000 < raw.V2_low then raw.V2_low else held.V2_low
    I2_low := if raw.I2_low < 10000 ∧ -10000 < raw.I2_low then raw.I2_low else held.I2_low
    V_high := if raw.V_high ≠ -10000 then raw.V_high else held.V_high }

/-- Capacity of the record array (`RECORD_SIZE = 2048`). -/
def RECORD_SIZE : Nat := 2048

/-- One waveform record (`typedef struct Record`): seven 32-bit fields. -/
structure Record (α : Type) where
  I_low : α
  V_low : α
  Vhigh_value : α
  Iref : α
  duty_cycle : α
  Vgrid : α
  angle : α
deriving DecidableEq, Repr

/-- One record append as performed by both roles every 4th cycle: write the
record at index `counter` of the array, then increment the counter only while
`counter < RECORD_SIZE - 1`. The array is modelled as a total map from indices
to records so that which indices a write touches is explicit. -/
def record_step {α : Type} (r : Record α) (counter : Nat)
    (arr : Nat → Record α) : Nat × (Nat → Record α) :=
  (if counter < RECORD_SIZE - 1 then counter + 1 else counter,
   fun i => if i = counter then r else arr i)

/-- Iterated record appends of the same record, starting from a
counter/array pair. -/
def appendN {α : Type} (r : Record α) : Nat → Nat × (Nat → Record α) → Nat × (Nat → Record α)
  | 0, p => p
  | n + 1, p => appendN r n (record_step r p.1 p.2)

/-- The synchronisation frame (`struct consigne_struct`): three scalar fields
from the server plus the packed status byte. -/
structure consigne_struct (α : Type) where
  Vref_fromSERVER : α
  Iref_fromSERVER : α
  w0_fromSERVER : α
  id_and_status : Nat
deriving DecidableEq, Repr

namespace Client

/-- Float constant PI of the trigonometry header, as the client's static
initialisation uses it (single-precision literal). -/
def PI : ℚ := 3.14159265

/-- Nominal grid frequency (`f0 = 50`). -/
def f0 : ℚ := 50

/-- Nominal DC bus voltage (`Udc = 40.0`). -/
def Udc : ℚ := 40

/-- Control period in seconds (`Ts = control_task_period * 1.0e-6` with a
100 microsecond period). -/
def Ts : ℚ := 100 / 1000000

/-- Initial shared angular frequency (`w0 = 2 * PI * f0`). -/
def w0 : ℚ := 2 * PI * f0

/-- Proportional gain of the client's current regulator (`Kp_i = 0.2`). -/
def Kp_i : ℚ := 0.2

/-- Resonant gain of the client's current regulator (`Kr_i = 3000.0`). -/
def Kr_i : ℚ := 3000

/-- Parameters of the client's current regulator
(`PrParams(Ts, Kp_i, Kr_i, w0, 0.0, -Udc, Udc)`). -/
def pr_current_params : PrParams ℚ := ⟨Ts, Kp_i, Kr_i, w0, 0, -Udc, Udc⟩

/-- The client's mutable globals relevant to the control core: the retained
status byte, the serial-interface mode, the PWM flag, counts of the
`startAll`/`stopAll` hardware calls issued so far (to state idempotence),
the record cursor and cycle counter, the retained setpoints, the held
measurements, the regulator state and its last output, the duty cycle, and the
record array. -/
structure State where
  status : Nat
  mode : Mode
  pwm_enable : Bool
  starts : Nat
  stops : Nat
  counter : Nat
  counter_time : Nat
  Iref : ℚ
  Vgrid : ℚ
  w0 : ℚ
  pr : PrState ℚ
  pr_value : ℚ
  duty_cycle : ℚ
  meas : Meas ℚ
  record_arr : Nat → Record ℚ

/-- The reception callback `reception_function` on the client (lines 148-163):
the frame is consumed only when `id_and_status >> 6 == 1`; then the status byte
is retained, the record cursor is zeroed when `(id_and_status & 2) == 1`, and
the three scalar fields are retained. -/
def reception_function (rx : consigne_struct ℚ) (s : State) : State :=
  if rx.id_and_status >>> 6 = 1 then
    let s1 := { s with status := rx.id_and_status }
    let s2 := if rx.id_and_status &&& 2 = 1 then { s1 with counter := 0 } else s1
    { s2 with Iref := rx.Iref_fromSERVER, Vgrid := rx.Vref_fromSERVER,
              w0 := rx.w0_fromSERVER }
  else s

/-- The console handler for the character `i` (lines 224-228): set idle mode
and zero the record cursor. -/
def console_i (s : State) : State :=
  { s with mode := Mode.IDLEMODE, counter := 0 }

/-- The record snapshot taken by the client (lines 401-407); the `angle` slot
stores the regulator output `pr_value`. -/
def mkRecord (s : State) : Record ℚ :=
  ⟨s.meas.I1_low, s.meas.V1_low, s.meas.V_high, s.Iref, s.duty_cycle, s.Vgrid,
   s.pr_value⟩

/-- The unconditional head of the client's run branch (lines 386-390): enter
power mode, run the current regulator on `(Iref, I1_low)`, and compute
`duty_cycle = (Vgrid + pr_value) / (2 * Udc) + 0.5`. -/
def runCompute (s : State) : State :=
  let st := Pr.step pr_current_params s.pr s.Iref s.meas.I1_low
  { s with mode := Mode.POWERMODE, pr := st.2, pr_value := st.1,
           duty_cycle := (s.Vgrid + st.1) / (2 * Udc) + 0.5 }

/-- The PWM-enable block (lines 392-397): start the PWM stage only when it was
not already enabled. -/
def pwmOn (s : State) : State :=
  if s.pwm_enable then s
  else { s with pwm_enable := true, starts := s.starts + 1 }

/-- The record block (lines 399-410): every 4th cycle append one record under
the saturating-cursor policy. -/
def recordBlock (s : State) : State :=
  if s.counter_time % 4 = 0 then
    let rs := record_step (mkRecord s) s.counter s.record_arr
    { s with counter := rs.1, record_arr := rs.2 }
  else s

/-- The cycle-counter increment closing the run branch (line 411). -/
def tickTime (s : State) : State :=
  { s with counter_time := s.counter_time + 1 }

/-- The client's run branch of `loop_critical_task` (lines 384-412), executed
when the retained status carries run code 1 or 2. -/
def runBranch (s : State) : State :=
  tickTime (recordBlock (pwmOn (runCompute s)))

/-- The client's idle branch of `loop_critical_task` (lines 413-422): enter
idle mode and stop the PWM stage only when it was enabled. -/
def idleBranch (s : State) : State :=
  let s1 := { s with mode := Mode.IDLEMODE }
  if s1.pwm_enable then { s1 with pwm_enable := false, stops := s1.stops + 1 }
  else s1

/-- One client critical-task tick (lines 293-426): refresh the held
measurements, then dispatch on the low two bits of the retained status byte. -/
def criticalStep (raw : Meas ℚ) (s : State) : State :=
  let s1 := { s with meas := update_meas raw s.meas }
  if s1.status &&& 3 = 1 ∨ s1.status &&& 3 = 2 then runBranch s1
  else idleBranch s1

end Client

namespace Server

/-- Nominal grid frequency (`f0 = 50`). -/
noncomputable def f0 : ℝ := 50

/-- Nominal DC bus voltage (`Udc = 40.0`). -/
noncomputable def Udc : ℝ := 40

/-- Control period in seconds (100 microseconds). -/
noncomputable def Ts : ℝ := 100 / 1000000

/-- Shared angular frequency (`w0 = 2 * PI * f0`); the server never rewrites
it, so it is a constant on this side. -/
noncomputable def w0 : ℝ := 2 * Real.pi * f0

/-- Amplitude of the generated grid voltage (`Vgrid_amplitude = 12.0`). -/
noncomputable def Vgrid_amplitude : ℝ := 12

/-- Proportional gain of the server's voltage regulator (`Kp_v = 0.02`). -/
noncomputable def Kp_v : ℝ := 0.02

/-- Resonant gain of the server's voltage regulator (`Kr_v = 4000.0`). -/
noncomputable def Kr_v : ℝ := 4000

/-- Parameters of the server's voltage regulator
(`PrParams(Ts, Kp_v, Kr_v, w0, 0.0, -Udc, Udc)`). -/
noncomputable def pr_voltage_params : PrParams ℝ := ⟨Ts, Kp_v, Kr_v, w0, 0, -Udc, Udc⟩

/-- Modelled from the spec: `ot_modulo_2pi` (trigo.h, OwnTech library, not
under src) wraps the phase accumulator into `[0, 2*pi)`. -/
noncomputable def ot_modulo_2pi (x : ℝ) : ℝ :=
  x - 2 * Real.pi * ⌊x / (2 * Real.pi)⌋

/-- The server's mutable globals relevant to the control core, mirroring the
client state; additionally the phase accumulator `angle`, the droop gain
`k_gain`, the transmit frame and a count of transmissions started. -/
structure State where
  mode : Mode
  pwm_enable : Bool
  starts : Nat
  stops : Nat
  counter : Nat
  counter_time : Nat
  angle : ℝ
  k_gain : ℝ
  Iref : ℝ
  Vgrid : ℝ
  duty_cycle : ℝ
  pr : PrState ℝ
  meas : Meas ℝ
  tx : consigne_struct ℝ
  transmissions : Nat
  record_arr : Nat → Record ℝ

/-- The record snapshot taken by the server (lines 357-363); the `angle` slot
stores the phase accumulator. -/
noncomputable def mkRecord (s : State) : Record ℝ :=
  ⟨s.meas.I1_low, s.meas.V1_low, s.meas.V_high, s.Iref, s.duty_cycle, s.Vgrid,
   s.angle⟩

/-- The unconditional head of the server's power branch (lines 335-353):
advance and wrap the phase, compute `Vgrid = Vgrid_amplitude * sin(angle)`,
run the voltage regulator on `(Vgrid, V1_low - V2_low)` and map its output to
`duty_cycle = 0.5 + correction / (2 * Udc)`, build the outgoing frame (status
66 = run/reset on the first cycle of a session, 65 = run/continue otherwise,
both with bit 6 set), and start a transmission. -/
noncomputable def powerCompute (s : State) : State :=
  let angle1 := ot_modulo_2pi (s.angle + w0 * Ts)
  let Vgrid1 := Vgrid_amplitude * Real.sin angle1
  let st := Pr.step pr_voltage_params s.pr Vgrid1 (s.meas.V1_low - s.meas.V2_low)
  let Iref1 := s.k_gain * s.meas.I1_low
  { s with angle := angle1, Vgrid := Vgrid1, pr := st.2,
           duty_cycle := 0.5 + st.1 / (2 * Udc),
           Iref := Iref1,
           tx := ⟨Vgrid1, Iref1, w0, if s.counter = 0 then 66 else 65⟩,
           transmissions := s.transmissions + 1 }

/-- The server's record block (lines 355-366): every 4th cycle append one
record under the saturating-cursor policy. -/
noncomputable def recordBlock (s : State) : State :=
  if s.counter_time % 4 = 0 then
    let rs := record_step (mkRecord s) s.counter s.record_arr
    { s with counter := rs.1, record_arr := rs.2 }
  else s

/-- The server's PWM-enable block (lines 368-373): start the PWM stage only
when it was not already enabled. -/
def pwmOn (s : State) : State :=
  if s.pwm_enable then s
  else { s with pwm_enable := true, starts := s.starts + 1 }

/-- The cycle-counter increment closing the power branch (line 376). -/
def tickTime (s : State) : State :=
  { s with counter_time := s.counter_time + 1 }

/-- The server's power branch of `loop_critical_task` (lines 331-377). -/
noncomputable def powerBranch (s : State) : State :=
  tickTime (pwmOn (recordBlock (powerCompute s)))

/-- The server's idle branch of `loop_critical_task` (lines 318-330): when the
PWM stage was enabled, stop it, reset the droop gain to 1, and transmit one
idle status frame (status byte 64: bit 6 set, low bits 0); in every case mark
the PWM stage disabled. -/
noncomputable def idleBranch (s : State) : State :=
  let s1 :=
    if s.pwm_enable then
      { s with k_gain := 1, stops := s.stops + 1,
               tx := { s.tx with id_and_status := 64 },
               transmissions := s.transmissions + 1 }
    else s
  { s1 with pwm_enable := false }

/-- One server critical-task tick (lines 293-379): refresh the held
measurements, then dispatch on the commanded mode. -/
noncomputable def criticalStep (raw : Meas ℝ) (s : State) : State :=
  let s1 := { s with meas := update_meas raw s.meas }
  match s1.mode with
  | Mode.IDLEMODE => idleBranch s1
  | Mode.POWERMODE => powerBranch s1

end Server

/-! Concrete inputs used to evaluate the definitions in the theorems below. -/

namespace Client

/-- A concrete client state used to evaluate the definitions. -/
def base : State :=
  { status := 0, mode := Mode.IDLEMODE, pwm_enable := false, starts := 0,
    stops := 0, counter := 5, counter_time := 1, Iref := 1, Vgrid := 2,
    w0 := 3, pr := ⟨0, 0⟩, pr_value := 0, duty_cycle := 0,
    meas := ⟨5, 5, 5, 5, 5⟩, record_arr := fun _ => ⟨0, 0, 0, 0, 0, 0, 0⟩ }

/-- A concrete frame whose status byte is 66 = 0b01000010: bit 6 set, bit 7
clear, low bits 2 — the byte the server emits on the first power cycle. -/
def rx66 : consigne_struct ℚ := ⟨7, 8, 9, 66⟩

/-- A concrete frame whose status byte is 130 = 0b10000010: top bit set, low
bits 2 — the status byte the specification's decode example uses. -/
def rx130 : consigne_struct ℚ := ⟨7, 8, 9, 130⟩

/-- A concrete in-window raw sample set. -/
def rawOk : Meas ℚ := ⟨5, 5, 5, 5, 5⟩

/-- A concrete client state about to compute a duty cycle: the received Vgrid
is 12 (the server's amplitude), the received current reference is 5, the
measured current is 5, and the regulator's resonant state is wound up to
1000. -/
def wound : State :=
  { base with Vgrid := 12, Iref := 5, pr := ⟨1000, 0⟩ }

end Client

namespace Server

/-- A concrete server state used to evaluate the definitions. -/
noncomputable def baseS : State :=
  { mode := Mode.POWERMODE, pwm_enable := false, starts := 0, stops := 0,
    counter := 0, counter_time := 1, angle := 0, k_gain := 1, Iref := 0,
    Vgrid := 0, duty_cycle := 0, pr := ⟨0, 0⟩, meas := ⟨0, 0, 0, 0, 0⟩,
    tx := ⟨0, 0, 0, 0⟩, transmissions := 0,
    record_arr := fun _ => ⟨0, 0, 0, 0, 0, 0, 0⟩ }

end Server

/-- A concrete set of held measurement values, all 5. -/
def held5 : Meas ℚ := ⟨5, 5, 5, 5, 5⟩

/-- A concrete raw sample set whose high-side voltage sample is 20000, far
outside the sanity window. -/
def rawVhigh20k : Meas ℚ := ⟨5, 5, 5, 5, 20000⟩

/-- A concrete raw sample set whose first low-side current sample is 20000,
far outside the sanity window. -/
def rawI1out : Meas ℚ := ⟨20000, 5, 5, 5, 5⟩

/-- A concrete raw sample set whose four low-side samples all lie outside the
open sanity window. -/
def rawAllOut : Meas ℚ := ⟨20000, 10000, -10000, -20000, 5⟩

/-- A concrete all-zero record. -/
def rec0 : Record ℚ := ⟨0, 0, 0, 0, 0, 0, 0⟩

/-- A concrete all-one record. -/
def rec1 : Record ℚ := ⟨1, 1, 1, 1, 1, 1, 1⟩

/-! Helper lemmas used by the theorems below. -/

lemma and_two_ne_one (x : Nat) : x &&& 2 ≠ 1 := by
  intro h
  have h0 := congrArg (fun n => Nat.testBit n 0) h
  simp [Nat.testBit_and] at h0

lemma appendN_fst (r : Record ℚ) :
    ∀ (n c : Nat) (arr : Nat → Record ℚ), c ≤ RECORD_SIZE - 1 →
      (appendN r n (c, arr)).1 = min (c + n) (RECORD_SIZE - 1)
  | 0, c, arr, h => by
    simp only [appendN, RECORD_SIZE] at *
    omega
  | n + 1, c, arr, h => by
    simp only [RECORD_SIZE] at h
    simp only [appendN, record_step, RECORD_SIZE]
    split
    · rw [appendN_fst r n (c + 1) _ (by simp only [RECORD_SIZE]; omega)]
      simp only [RECORD_SIZE]
      omega
    · rw [appendN_fst r n c _ (by simp only [RECORD_SIZE]; omega)]
      simp only [RECORD_SIZE]
      omega

lemma appendN_outside (r : Record ℚ) :
    ∀ (n c : Nat) (arr : Nat → Record ℚ) (i : Nat), c ≤ RECORD_SIZE - 1 →
      RECORD_SIZE ≤ i → (appendN r n (c, arr)).2 i = arr i
  | 0, c, arr, i, hc, hi => rfl
  | n + 1, c, arr, i, hc, hi => by
    simp only [RECORD_SIZE] at hc hi
    simp only [appendN, record_step, RECORD_SIZE]
    split
    · rw [appendN_outside r n (c + 1) _ i (by simp only [RECORD_SIZE]; omega)
          (by simp only [RECORD_SIZE]; omega)]
      exact if_neg (by omega)
    · rw [appendN_outside r n c _ i (by simp only [RECORD_SIZE]; omega)
          (by simp only [RECORD_SIZE]; omega)]
      exact if_neg (by omega)

namespace Client

lemma runCompute_mode (s : State) : (runCompute s).mode = Mode.POWERMODE := rfl

lemma runCompute_pwm (s : State) : (runCompute s).pwm_enable = s.pwm_enable := rfl

lemma runCompute_starts (s : State) : (runCompute s).starts = s.starts := rfl

lemma runCompute_stops (s : State) : (runCompute s).stops = s.stops := rfl

lemma pwmOn_mode (s : State) : (pwmOn s).mode = s.mode := by
  unfold pwmOn; split <;> rfl

lemma pwmOn_pwm (s : State) : (pwmOn s).pwm_enable = true := by
  unfold pwmOn; split <;> simp_all

lemma pwmOn_starts (s : State) :
    (pwmOn s).starts = if s.pwm_enable then s.starts else s.starts + 1 := by
  unfold pwmOn; split <;> simp_all

lemma pwmOn_stops (s : State) : (pwmOn s).stops = s.stops := by
  unfold pwmOn; split <;> rfl

lemma pwmOn_counter_time (s : State) : (pwmOn s).counter_time = s.counter_time := by
  unfold pwmOn; split <;> rfl

lemma pwmOn_counter (s : State) : (pwmOn s).counter = s.counter := by
  unfold pwmOn; split <;> rfl

lemma recordBlock_mode (s : State) : (recordBlock s).mode = s.mode := by
  unfold recordBlock; split <;> rfl

lemma recordBlock_pwm (s : State) : (recordBlock s).pwm_enable = s.pwm_enable := by
  unfold recordBlock; split <;> rfl

lemma recordBlock_starts (s : State) : (recordBlock s).starts = s.starts := by
  unfold recordBlock; split <;> rfl

lemma recordBlock_stops (s : State) : (recordBlock s).stops = s.stops := by
  unfold recordBlock; split <;> rfl

lemma tickTime_mode (s : State) : (tickTime s).mode = s.mode := rfl

lemma tickTime_pwm (s : State) : (tickTime s).pwm_enable = s.pwm_enable := rfl

lemma tickTime_starts (s : State) : (tickTime s).starts = s.starts := rfl

lemma tickTime_stops (s : State) : (tickTime s).stops = s.stops := rfl

lemma runBranch_mode (s : State) : (runBranch s).mode = Mode.POWERMODE := by
  unfold runBranch
  rw [tickTime_mode, recordBlock_mode, pwmOn_mode, runCompute_mode]

lemma runBranch_pwm (s : State) : (runBranch s).pwm_enable = true := by
  unfold runBranch
  rw [tickTime_pwm, recordBlock_pwm, pwmOn_pwm]

lemma runBranch_starts (s : State) :
    (runBranch s).starts = if s.pwm_enable then s.starts else s.starts + 1 := by
  unfold runBranch
  rw [tickTime_starts, recordBlock_starts, pwmOn_starts, runCompute_starts,
      runCompute_pwm]

lemma runBranch_stops (s : State) : (runBranch s).stops = s.stops := by
  unfold runBranch
  rw [tickTime_stops, recordBlock_stops, pwmOn_stops, runCompute_stops]

lemma idleBranch_mode (s : State) : (idleBranch s).mode = Mode.IDLEMODE := by
  simp only [idleBranch]; split <;> rfl

lemma idleBranch_pwm (s : State) : (idleBranch s).pwm_enable = false := by
  simp only [idleBranch]; split <;> simp_all

lemma idleBranch_starts (s : State) : (idleBranch s).starts = s.starts := by
  simp only [idleBranch]; split <;> rfl

lemma idleBranch_stops (s : State) :
    (idleBranch s).stops = if s.pwm_enable then s.stops + 1 else s.stops := by
  simp only [idleBranch]; split <;> simp_all

lemma runCompute_duty (s : State) :
    (runCompute s).duty_cycle =
      (s.Vgrid + (Pr.step pr_current_params s.pr s.Iref s.meas.I1_low).1) /
        (2 * Udc) + 0.5 := rfl

lemma pwmOn_duty (s : State) : (pwmOn s).duty_cycle = s.duty_cycle := by
  simp only [pwmOn]; split <;> rfl

lemma recordBlock_duty (s : State) :
    (recordBlock s).duty_cycle = s.duty_cycle := by
  simp only [recordBlock]; split <;> rfl

lemma tickTime_duty (s : State) : (tickTime s).duty_cycle = s.duty_cycle := rfl

lemma runBranch_duty (s : State) :
    (runBranch s).duty_cycle =
      (s.Vgrid + (Pr.step pr_current_params s.pr s.Iref s.meas.I1_low).1) /
        (2 * Udc) + 0.5 := by
  unfold runBranch
  rw [tickTime_duty, recordBlock_duty, pwmOn_duty, runCompute_duty]

end Client

namespace Server

lemma powerCompute_mode (s : State) : (powerCompute s).mode = s.mode := rfl

lemma powerCompute_pwm (s : State) :
    (powerCompute s).pwm_enable = s.pwm_enable := rfl

lemma powerCompute_starts (s : State) : (powerCompute s).starts = s.starts := rfl

lemma powerCompute_stops (s : State) : (powerCompute s).stops = s.stops := rfl

lemma powerCompute_angle (s : State) :
    (powerCompute s).angle = ot_modulo_2pi (s.angle + w0 * Ts) := rfl

lemma powerCompute_Vgrid (s : State) :
    (powerCompute s).Vgrid =
      Vgrid_amplitude * Real.sin (ot_modulo_2pi (s.angle + w0 * Ts)) := rfl

lemma powerCompute_duty (s : State) :
    (powerCompute s).duty_cycle =
      0.5 + (Pr.step pr_voltage_params s.pr
               (Vgrid_amplitude * Real.sin (ot_modulo_2pi (s.angle + w0 * Ts)))
               (s.meas.V1_low - s.meas.V2_low)).1 / (2 * Udc) := rfl

lemma recordBlockS_mode (s : State) : (recordBlock s).mode = s.mode := by
  simp only [recordBlock]; split <;> rfl

lemma recordBlockS_pwm (s : State) :
    (recordBlock s).pwm_enable = s.pwm_enable := by
  simp only [recordBlock]; split <;> rfl

lemma recordBlockS_starts (s : State) : (recordBlock s).starts = s.starts := by
  simp only [recordBlock]; split <;> rfl

lemma recordBlockS_stops (s : State) : (recordBlock s).stops = s.stops := by
  simp only [recordBlock]; split <;> rfl

lemma recordBlockS_angle (s : State) : (recordBlock s).angle = s.angle := by
  simp only [recordBlock]; split <;> rfl

lemma recordBlockS_Vgrid (s : State) : (recordBlock s).Vgrid = s.Vgrid := by
  simp only [recordBlock]; split <;> rfl

lemma recordBlockS_duty (s : State) :
    (recordBlock s).duty_cycle = s.duty_cycle := by
  simp only [recordBlock]; split <;> rfl

lemma pwmOnS_mode (s : State) : (pwmOn s).mode = s.mode := by
  simp only [pwmOn]; split <;> rfl

lemma pwmOnS_pwm (s : State) : (pwmOn s).pwm_enable = true := by
  simp only [pwmOn]; split <;> simp_all

lemma pwmOnS_starts (s : State) :
    (pwmOn s).starts = if s.pwm_enable then s.starts else s.starts + 1 := by
  simp only [pwmOn]; split <;> simp_all

lemma pwmOnS_stops (s : State) : (pwmOn s).stops = s.stops := by
  simp only [pwmOn]; split <;> rfl

lemma pwmOnS_angle (s : State) : (pwmOn s).angle = s.angle := by
  simp only [pwmOn]; split <;> rfl

lemma pwmOnS_Vgrid (s : State) : (pwmOn s).Vgrid = s.Vgrid := by
  simp only [pwmOn]; split <;> rfl

lemma pwmOnS_duty (s : State) : (pwmOn s).duty_cycle = s.duty_cycle := by
  simp only [pwmOn]; split <;> rfl

lemma tickTimeS_mode (s : State) : (tickTime s).mode = s.mode := rfl

lemma tickTimeS_pwm (s : State) : (tickTime s).pwm_enable = s.pwm_enable := rfl

lemma tickTimeS_starts (s : State) : (tickTime s).starts = s.starts := rfl

lemma tickTimeS_stops (s : State) : (tickTime s).stops = s.stops := rfl

lemma tickTimeS_angle (s : State) : (tickTime s).angle = s.angle := rfl

lemma tickTimeS_Vgrid (s : State) : (tickTime s).Vgrid = s.Vgrid := rfl

lemma tickTimeS_duty (s : State) : (tickTime s).duty_cycle = s.duty_cycle := rfl

lemma powerBranch_pwm (s : State) : (powerBranch s).pwm_enable = true := by
  unfold powerBranch
  rw [tickTimeS_pwm, pwmOnS_pwm]

lemma powerBranch_starts (s : State) :
    (powerBranch s).starts = if s.pwm_enable then s.starts else s.starts + 1 := by
  unfold powerBranch
  rw [tickTimeS_starts, pwmOnS_starts, recordBlockS_starts, recordBlockS_pwm,
      powerCompute_starts, powerCompute_pwm]

lemma powerBranch_stops (s : State) : (powerBranch s).stops = s.stops := by
  unfold powerBranch
  rw [tickTimeS_stops, pwmOnS_stops, recordBlockS_stops, powerCompute_stops]

lemma powerBranch_angle (s : State) :
    (powerBranch s).angle = ot_modulo_2pi (s.angle + w0 * Ts) := by
  unfold powerBranch
  rw [tickTimeS_angle, pwmOnS_angle, recordBlockS_angle, powerCompute_angle]

lemma powerBranch_Vgrid (s : State) :
    (powerBranch s).Vgrid =
      Vgrid_amplitude * Real.sin (ot_modulo_2pi (s.angle + w0 * Ts)) := by
  unfold powerBranch
  rw [tickTimeS_Vgrid, pwmOnS_Vgrid, recordBlockS_Vgrid, powerCompute_Vgrid]

lemma powerBranch_duty (s : State) :
    (powerBranch s).duty_cycle =
      0.5 + (Pr.step pr_voltage_params s.pr
               (Vgrid_amplitude * Real.sin (ot_modulo_2pi (s.angle + w0 * Ts)))
               (s.meas.V1_low - s.meas.V2_low)).1 / (2 * Udc) := by
  unfold powerBranch
  rw [tickTimeS_duty, pwmOnS_duty, recordBlockS_duty, powerCompute_duty]

lemma idleBranchS_pwm (s : State) : (idleBranch s).pwm_enable = false := by
  simp only [idleBranch]

lemma idleBranchS_starts (s : State) : (idleBranch s).starts = s.starts := by
  simp only [idleBranch]; split <;> rfl

lemma idleBranchS_stops (s : State) :
    (idleBranch s).stops = if s.pwm_enable then s.stops + 1 else s.stops := by
  simp only [idleBranch]; split <;> simp_all

end Server

/-- Claim C1 (counterexample): the claim says the client accepts a frame
whenever the valid-frame bit — which it identifies with the top bit of the
status byte — is set. Status byte 130 = 0b10000010 has the top bit (bit 7)
set, yet `reception_function` leaves the whole state unchanged (in particular
the retained Iref stays 1 and does not take the frame's value 8), because the
code's acceptance test is `id_and_status >> 6 == 1` and `130 >>> 6 = 2`. -/
theorem reception_top_bit_counterexample :
    Nat.testBit Client.rx130.id_and_status 7 = true ∧
    Client.rx130.id_and_status >>> 6 = 2 ∧
    Client.reception_function Client.rx130 Client.base = Client.base ∧
    Client.base.Iref = 1 ∧ Client.rx130.Iref_fromSERVER = 8 := by
  refine ⟨by decide, by decide, ?_, rfl, rfl⟩
  rfl

/-- Claim C1 (amended): the client accepts an incoming frame exactly when the
top two bits of the status byte equal 01, i.e. `id_and_status >>> 6 = 1`
(bit 6 — the bit the server actually sets — is set and bit 7 is clear). On
acceptance the retained status, Iref, Vgrid and w0 take the frame's values and
every other field (the record cursor included, since `x &&& 2 = 1` never
holds) is unchanged; when the test fails the frame is ignored and the state is
unchanged. -/
theorem reception_accept_condition (rx : consigne_struct ℚ) (s : Client.State) :
    (rx.id_and_status >>> 6 = 1 →
      Client.reception_function rx s =
        { s with status := rx.id_and_status, Iref := rx.Iref_fromSERVER,
                 Vgrid := rx.Vref_fromSERVER, w0 := rx.w0_fromSERVER }) ∧
    (rx.id_and_status >>> 6 ≠ 1 →
      Client.reception_function rx s = s) := by
  constructor
  · intro h
    simp only [Client.reception_function, if_pos h,
      if_neg (and_two_ne_one rx.id_and_status)]
  · intro h
    simp only [Client.reception_function, if_neg h]

/-- Witness for the amended claim C1 at concrete inputs: status byte 66
(accepted, all four fields updated, cursor kept) and status byte 130
(rejected, state unchanged). -/
theorem reception_accept_condition_witness :
    Client.reception_function Client.rx66 Client.base =
      { Client.base with status := 66, Iref := 8, Vgrid := 7, w0 := 9 } ∧
    Client.reception_function Client.rx130 Client.base = Client.base :=
  ⟨(reception_accept_condition Client.rx66 Client.base).1 (by decide),
   (reception_accept_condition Client.rx130 Client.base).2 (by decide)⟩

/-- Claim C2 is contradicted by the code (code bug): the server signals a
record-cursor reset with status byte 66 = 0b01000010 (bit 6 set, low bits 2),
and on receiving it the client does enter Power mode on the next critical
tick, but the record cursor is never reset: the reception path's reset test
compares `id_and_status & 2` — whose value here is 2, and which can never
equal 1 for any byte — against 1, so the cursor keeps its prior value 5.
Moreover the status byte the claim itself exhibits, 130 = 0b10000010, fails
the acceptance test `id_and_status >> 6 == 1` and the frame is ignored
entirely. -/
theorem status_reset_code_never_resets_cursor :
    Client.rx66.id_and_status &&& 2 = 2 ∧
    (Client.reception_function Client.rx66 Client.base).status = 66 ∧
    (Client.reception_function Client.rx66 Client.base).counter = 5 ∧
    (Client.criticalStep Client.rawOk
      (Client.reception_function Client.rx66 Client.base)).mode =
      Mode.POWERMODE ∧
    (Client.criticalStep Client.rawOk
      (Client.reception_function Client.rx66 Client.base)).counter = 5 ∧
    Client.reception_function Client.rx130 Client.base = Client.base := by
  refine ⟨by decide, rfl, rfl, ?_, ?_, rfl⟩
  · rfl
  · rfl

/-- Claim C5: for both roles, the PWM flag is true after a Power-mode tick
and false after an Idle-mode tick, the Power tick never issues a stop, the
Idle tick never issues a start, and the hardware side effect is issued exactly
once per transition: two Power ticks in a row from a disabled PWM stage issue
exactly one start call, and two Idle ticks in a row from an enabled PWM stage
issue exactly one stop call. -/
theorem pwm_idempotent_transitions :
    (∀ s : Client.State,
      (Client.runBranch s).pwm_enable = true ∧
      (Client.idleBranch s).pwm_enable = false ∧
      (Client.runBranch s).stops = s.stops ∧
      (Client.idleBranch s).starts = s.starts ∧
      (s.pwm_enable = false →
        (Client.runBranch (Client.runBranch s)).starts = s.starts + 1) ∧
      (s.pwm_enable = true →
        (Client.idleBranch (Client.idleBranch s)).stops = s.stops + 1)) ∧
    (∀ s : Server.State,
      (Server.powerBranch s).pwm_enable = true ∧
      (Server.idleBranch s).pwm_enable = false ∧
      (Server.powerBranch s).stops = s.stops ∧
      (Server.idleBranch s).starts = s.starts ∧
      (s.pwm_enable = false →
        (Server.powerBranch (Server.powerBranch s)).starts = s.starts + 1) ∧
      (s.pwm_enable = true →
        (Server.idleBranch (Server.idleBranch s)).stops = s.stops + 1)) := by
  constructor
  · intro s
    refine ⟨Client.runBranch_pwm s, Client.idleBranch_pwm s,
      Client.runBranch_stops s, Client.idleBranch_starts s, ?_, ?_⟩
    · intro h
      simp [Client.runBranch_starts, Client.runBranch_pwm, h]
    · intro h
      simp [Client.idleBranch_stops, Client.idleBranch_pwm, h]
  · intro s
    refine ⟨Server.powerBranch_pwm s, Server.idleBranchS_pwm s,
      Server.powerBranch_stops s, Server.idleBranchS_starts s, ?_, ?_⟩
    · intro h
      simp [Server.powerBranch_starts, Server.powerBranch_pwm, h]
    · intro h
      simp [Server.idleBranchS_stops, Server.idleBranchS_pwm, h]

/-- Witness for claim C5 at concrete states: a disabled client/server state
ticked twice in Power mode records exactly one start, and an enabled one
ticked twice in Idle mode records exactly one stop. -/
theorem pwm_idempotent_transitions_witness :
    (Client.runBranch (Client.runBranch Client.base)).starts =
      Client.base.starts + 1 ∧
    (Client.idleBranch (Client.idleBranch
      { Client.base with pwm_enable := true })).stops =
      Client.base.stops + 1 ∧
    (Server.powerBranch (Server.powerBranch Server.baseS)).starts =
      Server.baseS.starts + 1 ∧
    (Server.idleBranch (Server.idleBranch
      { Server.baseS with pwm_enable := true })).stops =
      Server.baseS.stops + 1 :=
  ⟨(pwm_idempotent_transitions.1 Client.base).2.2.2.2.1 rfl,
   (pwm_idempotent_transitions.1
      { Client.base with pwm_enable := true }).2.2.2.2.2 rfl,
   (pwm_idempotent_transitions.2 Server.baseS).2.2.2.2.1 rfl,
   (pwm_idempotent_transitions.2
      { Server.baseS with pwm_enable := true }).2.2.2.2.2 rfl⟩

/-- Claim C7: the server's voltage regulator is configured with saturation
limits `[-Udc, Udc] = [-40, 40]`; every correction within those limits maps
through `duty = 0.5 + correction / (2 * Udc)` into `[0, 1]`; the regulator
output is always within the limits; and consequently the duty cycle the
server's power branch hands to the PWM driver lies in `[0, 1]` in every
state. -/
theorem server_duty_within_unit_interval :
    Server.pr_voltage_params.low = -Server.Udc ∧
    Server.pr_voltage_params.high = Server.Udc ∧
    (∀ c : ℝ, -Server.Udc ≤ c → c ≤ Server.Udc →
      0 ≤ 0.5 + c / (2 * Server.Udc) ∧ 0.5 + c / (2 * Server.Udc) ≤ 1) ∧
    (∀ (st : PrState ℝ) (ref meas : ℝ),
      -Server.Udc ≤ (Pr.step Server.pr_voltage_params st ref meas).1 ∧
      (Pr.step Server.pr_voltage_params st ref meas).1 ≤ Server.Udc) ∧
    (∀ s : Server.State,
      0 ≤ (Server.powerBranch s).duty_cycle ∧
      (Server.powerBranch s).duty_cycle ≤ 1) := by
  have hU : Server.Udc = 40 := rfl
  have hduty : ∀ c : ℝ, -Server.Udc ≤ c → c ≤ Server.Udc →
      0 ≤ 0.5 + c / (2 * Server.Udc) ∧ 0.5 + c / (2 * Server.Udc) ≤ 1 := by
    intro c h1 h2
    rw [hU] at h1 h2 ⊢
    constructor <;> [linarith; linarith]
  have hstep : ∀ (st : PrState ℝ) (ref meas : ℝ),
      -Server.Udc ≤ (Pr.step Server.pr_voltage_params st ref meas).1 ∧
      (Pr.step Server.pr_voltage_params st ref meas).1 ≤ Server.Udc := by
    intro st ref meas
    simp only [Pr.step]
    constructor
    · exact le_max_left _ _
    · refine max_le ?_ (min_le_left _ _)
      show Server.pr_voltage_params.low ≤ Server.pr_voltage_params.high
      rw [show Server.pr_voltage_params.low = -Server.Udc from rfl,
          show Server.pr_voltage_params.high = Server.Udc from rfl, hU]
      norm_num
  refine ⟨rfl, rfl, hduty, hstep, ?_⟩
  intro s
  rw [Server.powerBranch_duty]
  exact hduty _ (hstep s.pr _ _).1 (hstep s.pr _ _).2

/-- Witness for claim C7 at a concrete correction: the saturation bound 40
itself maps to duty 1. -/
theorem server_duty_within_unit_interval_witness :
    0 ≤ 0.5 + (40 : ℝ) / (2 * Server.Udc) ∧
    0.5 + (40 : ℝ) / (2 * Server.Udc) ≤ 1 :=
  server_duty_within_unit_interval.2.2.1 40
    (by rw [show Server.Udc = (40:ℝ) from rfl]; norm_num)
    (by rw [show Server.Udc = (40:ℝ) from rfl])

/-- Claim C9: on every client critical tick in which the retained status
byte's low two bits are 1 or 2, the mode is set to Power unconditionally —
in particular even when the console's idle command has just forced the mode
to Idle and zeroed the cursor, the next critical tick re-enters Power. -/
theorem client_run_code_forces_power (raw : Meas ℚ) (s : Client.State)
    (h : s.status &&& 3 = 1 ∨ s.status &&& 3 = 2) :
    (Client.criticalStep raw s).mode = Mode.POWERMODE ∧
    (Client.criticalStep raw (Client.console_i s)).mode = Mode.POWERMODE := by
  constructor
  · unfold Client.criticalStep
    rw [if_pos h]
    exact Client.runBranch_mode _
  · unfold Client.criticalStep Client.console_i
    rw [if_pos h]
    exact Client.runBranch_mode _

/-- Witness for claim C9: with retained status 66 (low bits 2) the tick after
a console idle command ends in Power mode. -/
theorem client_run_code_forces_power_witness :
    (Client.criticalStep Client.rawOk
      { Client.base with status := 66 }).mode = Mode.POWERMODE ∧
    (Client.criticalStep Client.rawOk
      (Client.console_i { Client.base with status := 66 })).mode =
      Mode.POWERMODE :=
  client_run_code_forces_power Client.rawOk { Client.base with status := 66 }
    (Or.inr (by decide))

/-- Claim C6: on every server power tick the phase accumulator advances by
`w0 * Ts` and is wrapped into `[0, 2*pi)`, the voltage reference is
`Vgrid_amplitude * sin(angle)` at the new angle, and the duty cycle is
`0.5 + correction / (2 * Udc)` where the correction is the PR regulator output
on reference `Vgrid` and measurement `V1_low - V2_low`; with the configured
`w0 = 2*pi*50`, `Ts = 100e-6` and amplitude 12, one tick from angle 0 gives
angle `pi/100`, within 0.001 of 0.0314 rad, and a Vgrid within 0.001 of
0.377. -/
theorem server_power_tick_waveform :
    (∀ x : ℝ, 0 ≤ Server.ot_modulo_2pi x ∧
      Server.ot_modulo_2pi x < 2 * Real.pi) ∧
    (∀ s : Server.State,
      (Server.powerBranch s).angle =
        Server.ot_modulo_2pi (s.angle + Server.w0 * Server.Ts) ∧
      (Server.powerBranch s).Vgrid =
        Server.Vgrid_amplitude * Real.sin ((Server.powerBranch s).angle) ∧
      (Server.powerBranch s).duty_cycle =
        0.5 + (Pr.step Server.pr_voltage_params s.pr
                 ((Server.powerBranch s).Vgrid)
                 (s.meas.V1_low - s.meas.V2_low)).1 / (2 * Server.Udc)) ∧
    (∀ s : Server.State,
      (Server.powerBranch { s with angle := 0 }).angle = Real.pi / 100 ∧
      |(Server.powerBranch { s with angle := 0 }).angle - 0.0314| < 0.001 ∧
      |(Server.powerBranch { s with angle := 0 }).Vgrid - 0.377| < 0.001) := by
  have hT : (0 : ℝ) < 2 * Real.pi := Real.two_pi_pos
  have hfr : ∀ x : ℝ, Server.ot_modulo_2pi x =
      (2 * Real.pi) * Int.fract (x / (2 * Real.pi)) := by
    intro x
    unfold Server.ot_modulo_2pi Int.fract
    have h : (2 * Real.pi) ≠ 0 := ne_of_gt hT
    field_simp
  have hrange : ∀ x : ℝ, 0 ≤ Server.ot_modulo_2pi x ∧
      Server.ot_modulo_2pi x < 2 * Real.pi := by
    intro x
    rw [hfr]
    constructor
    · exact mul_nonneg hT.le (Int.fract_nonneg _)
    · have h1 := Int.fract_lt_one (x / (2 * Real.pi))
      nlinarith [Int.fract_nonneg (x / (2 * Real.pi))]
  have hwts : Server.w0 * Server.Ts = Real.pi / 100 := by
    unfold Server.w0 Server.Ts Server.f0
    ring
  have hmod : Server.ot_modulo_2pi (Real.pi / 100) = Real.pi / 100 := by
    have hdiv : (Real.pi / 100) / (2 * Real.pi) = 1 / 200 := by
      have hpi : Real.pi ≠ 0 := Real.pi_ne_zero
      field_simp
      ring
    have hfl : ⌊(1 : ℝ) / 200⌋ = 0 := by
      rw [Int.floor_eq_zero_iff]
      simp only [Set.mem_Ico]
      norm_num
    unfold Server.ot_modulo_2pi
    rw [hdiv, hfl]
    simp
  have hpi1 : (3.141592 : ℝ) < Real.pi := Real.pi_gt_d6
  have hpi2 : Real.pi < 3.141593 := Real.pi_lt_d6
  refine ⟨hrange, ?_, ?_⟩
  · intro s
    refine ⟨Server.powerBranch_angle s, ?_, ?_⟩
    · rw [Server.powerBranch_Vgrid, Server.powerBranch_angle]
    · rw [Server.powerBranch_duty, Server.powerBranch_Vgrid]
  · intro s
    have hang : (Server.powerBranch { s with angle := 0 }).angle =
        Real.pi / 100 := by
      rw [Server.powerBranch_angle]
      show Server.ot_modulo_2pi (0 + Server.w0 * Server.Ts) = _
      rw [zero_add, hwts, hmod]
    have hvg : (Server.powerBranch { s with angle := 0 }).Vgrid =
        12 * Real.sin (Real.pi / 100) := by
      rw [Server.powerBranch_Vgrid]
      show Server.Vgrid_amplitude *
        Real.sin (Server.ot_modulo_2pi (0 + Server.w0 * Server.Ts)) = _
      rw [zero_add, hwts, hmod]
      rw [show Server.Vgrid_amplitude = (12 : ℝ) from rfl]
    have hx1 : (0.03141592 : ℝ) < Real.pi / 100 := by linarith
    have hx2 : Real.pi / 100 < 0.03141593 := by linarith
    have hxpos : (0 : ℝ) < Real.pi / 100 := by linarith
    have hxle : Real.pi / 100 ≤ 1 := by linarith
    have hs1 := Real.sin_lt hxpos
    have hs2 := Real.sin_gt_sub_cube hxpos hxle
    have hcb : (Real.pi / 100) ^ 3 < (0.03141593 : ℝ) ^ 3 :=
      pow_lt_pow_left₀ hx2 hxpos.le (by norm_num)
    have hcb2 : ((0.03141593 : ℝ)) ^ 3 < 0.0000311 := by norm_num
    refine ⟨hang, ?_, ?_⟩
    · rw [hang, abs_lt]
      constructor <;> linarith
    · rw [hvg, abs_lt]
      constructor <;> linarith

/-- Claim C3 (counterexample): the claim states that on all five channels a
raw sample outside the open window `(-10000, 10000)` leaves the held value
unchanged. On the high-side voltage channel a raw sample of 20000 — which is
at least 10000, hence outside the window — replaces the held value 5 with
20000: that channel's guard only rejects the exact value -10000. -/
theorem meas_window_counterexample :
    (10000 : ℚ) < rawVhigh20k.V_high ∧
    held5.V_high = 5 ∧
    (update_meas rawVhigh20k held5).V_high = 20000 := by
  refine ⟨by norm_num [rawVhigh20k], rfl, ?_⟩
  rfl

/-- Claim C3 (amended): for the four low-side channels (two voltages, two
currents) a raw sample outside the open window `(-10000, 10000)` leaves the
held value unchanged and an in-window sample replaces it — in particular a
sample 20000 followed by a valid sample 5 leaves the retained value at 5 —
but for the high-side voltage channel only the exact value -10000 is
rejected: any other sample, 20000 included, replaces the held value. -/
theorem meas_window_rules (raw held : Meas ℚ) :
    (¬ (raw.I1_low < 10000 ∧ -10000 < raw.I1_low) →
      (update_meas raw held).I1_low = held.I1_low) ∧
    (¬ (raw.V1_low < 10000 ∧ -10000 < raw.V1_low) →
      (update_meas raw held).V1_low = held.V1_low) ∧
    (¬ (raw.V2_low < 10000 ∧ -10000 < raw.V2_low) →
      (update_meas raw held).V2_low = held.V2_low) ∧
    (¬ (raw.I2_low < 10000 ∧ -10000 < raw.I2_low) →
      (update_meas raw held).I2_low = held.I2_low) ∧
    ((raw.I1_low < 10000 ∧ -10000 < raw.I1_low) →
      (update_meas raw held).I1_low = raw.I1_low) ∧
    (raw.V_high ≠ -10000 → (update_meas raw held).V_high = raw.V_high) ∧
    (update_meas held5 (update_meas rawI1out held5)).I1_low = 5 := by
  refine ⟨?_, ?_, ?_, ?_, ?_, ?_, by norm_num [update_meas, rawI1out, held5]⟩
    <;> intro h <;> simp [update_meas, h]

/-- Witness for the amended claim C3 at concrete inputs: an out-of-window
low-side current sample 20000 is dropped (the held 5 is retained), while a
high-side voltage sample 20000 is accepted. -/
theorem meas_window_rules_witness :
    (update_meas rawI1out held5).I1_low = held5.I1_low ∧
    (update_meas rawAllOut held5).I1_low = held5.I1_low ∧
    (update_meas rawAllOut held5).V1_low = held5.V1_low ∧
    (update_meas rawAllOut held5).V2_low = held5.V2_low ∧
    (update_meas rawAllOut held5).I2_low = held5.I2_low ∧
    (update_meas held5 held5).I1_low = held5.I1_low ∧
    (update_meas rawVhigh20k held5).V_high = rawVhigh20k.V_high :=
  ⟨(meas_window_rules rawI1out held5).1 (by norm_num [rawI1out]),
   (meas_window_rules rawAllOut held5).1 (by norm_num [rawAllOut]),
   (meas_window_rules rawAllOut held5).2.1 (by norm_num [rawAllOut]),
   (meas_window_rules rawAllOut held5).2.2.1 (by norm_num [rawAllOut]),
   (meas_window_rules rawAllOut held5).2.2.2.1 (by norm_num [rawAllOut]),
   (meas_window_rules held5 held5).2.2.2.2.1 (by norm_num [held5]),
   (meas_window_rules rawVhigh20k held5).2.2.2.2.2.1
     (by norm_num [rawVhigh20k])⟩

/-- Claim C4 (counterexample): the claim states that once the cursor has
reached `RECORD_SIZE - 1` further appends are skipped and no slot — the last
included — is overwritten. In fact an append at cursor `RECORD_SIZE - 1`
still writes the new record into the last slot: starting from an array whose
slot 2047 holds the all-zero record, appending the all-one record at cursor
2047 leaves the cursor at 2047 but the last slot now holds the all-one
record. -/
theorem record_append_overwrites_last_slot :
    RECORD_SIZE - 1 = 2047 ∧
    (fun _ : Nat => rec0) (RECORD_SIZE - 1) = rec0 ∧
    (record_step rec1 (RECORD_SIZE - 1) (fun _ => rec0)).1 = RECORD_SIZE - 1 ∧
    (record_step rec1 (RECORD_SIZE - 1) (fun _ => rec0)).2 (RECORD_SIZE - 1) =
      rec1 ∧
    rec0.I_low = 0 ∧ rec1.I_low = 1 := by
  refine ⟨rfl, rfl, ?_, ?_, rfl, rfl⟩
  · simp [record_step]
  · simp [record_step]

/-- Claim C4 (amended): the record cursor is monotonically non-decreasing,
stays at most `RECORD_SIZE - 1` and saturates there; an append touches no slot
other than the one at the cursor (so no write ever reaches index
`RECORD_SIZE` or beyond), but an append at the saturated cursor still
overwrites the last slot rather than being skipped; appending
`RECORD_SIZE + 10` records starting from cursor 0 leaves the cursor at
`RECORD_SIZE - 1` and leaves every index at or beyond `RECORD_SIZE`
untouched. -/
theorem record_cursor_saturation (r : Record ℚ) (c : Nat)
    (arr : Nat → Record ℚ) (i : Nat) :
    c ≤ (record_step r c arr).1 ∧
    (c ≤ RECORD_SIZE - 1 → (record_step r c arr).1 ≤ RECORD_SIZE - 1) ∧
    (c = RECORD_SIZE - 1 → (record_step r c arr).1 = RECORD_SIZE - 1 ∧
      (record_step r c arr).2 (RECORD_SIZE - 1) = r) ∧
    (i ≠ c → (record_step r c arr).2 i = arr i) ∧
    (appendN r (RECORD_SIZE + 10) (0, arr)).1 = RECORD_SIZE - 1 ∧
    (RECORD_SIZE ≤ i → (appendN r (RECORD_SIZE + 10) (0, arr)).2 i = arr i) := by
  refine ⟨?_, ?_, ?_, ?_, ?_, ?_⟩
  · simp only [record_step]
    split <;> omega
  · intro h
    simp only [record_step]
    simp only [RECORD_SIZE] at *
    split <;> omega
  · intro h
    subst h
    simp only [record_step, RECORD_SIZE]
    norm_num
  · intro h
    simp only [record_step]
    exact if_neg h
  · rw [appendN_fst r _ 0 arr (by simp only [RECORD_SIZE]; omega)]
    simp only [RECORD_SIZE]
    omega
  · intro h
    exact appendN_outside r _ 0 arr i (by simp only [RECORD_SIZE]; omega) h

/-- Witness for the amended claim C4 at concrete inputs: an append at the
saturated cursor 2047 keeps the cursor there and writes the last slot; slot
3000 — beyond the array bound — is untouched both by a single append and by
2058 appends from cursor 0. -/
theorem record_cursor_saturation_witness :
    (record_step rec1 2047 (fun _ => rec0)).1 ≤ RECORD_SIZE - 1 ∧
    ((record_step rec1 2047 (fun _ => rec0)).1 = RECORD_SIZE - 1 ∧
      (record_step rec1 2047 (fun _ => rec0)).2 (RECORD_SIZE - 1) = rec1) ∧
    (record_step rec1 2047 (fun _ => rec0)).2 3000 = rec0 ∧
    (appendN rec1 (RECORD_SIZE + 10) (0, fun _ => rec0)).2 3000 = rec0 :=
  ⟨(record_cursor_saturation rec1 2047 (fun _ => rec0) 3000).2.1 (by decide),
   (record_cursor_saturation rec1 2047 (fun _ => rec0) 3000).2.2.1 (by decide),
   (record_cursor_saturation rec1 2047 (fun _ => rec0) 3000).2.2.2.1
     (by decide),
   (record_cursor_saturation rec1 2047 (fun _ => rec0) 3000).2.2.2.2.2
     (by decide)⟩

/-- Claim C10: the client's duty cycle `(Vgrid + correction) / (2 * Udc) +
0.5` is handed to the PWM driver without clamping and is not confined to
`[0, 1]`: the regulator limits are `[-Udc, Udc] = [-40, 40]`, and in the
concrete reachable state with received `Vgrid = 12` (the server's own
amplitude) and a wound-up regulator whose output saturates at exactly 40, the
run branch computes duty 1.15, which exceeds 1. -/
theorem client_duty_exceeds_unit_interval :
    Client.pr_current_params.low = -Client.Udc ∧
    Client.pr_current_params.high = Client.Udc ∧
    (Pr.step Client.pr_current_params (⟨1000, 0⟩ : PrState ℚ) 5 5).1 = 40 ∧
    (Client.runBranch Client.wound).duty_cycle = 1.15 ∧
    1 < (Client.runBranch Client.wound).duty_cycle := by
  have hstep : (Pr.step Client.pr_current_params (⟨1000, 0⟩ : PrState ℚ) 5 5).1
      = 40 := by
    norm_num [Pr.step, Client.pr_current_params, Client.Ts, Client.Kp_i,
      Client.Kr_i, Client.w0, Client.PI, Client.f0, Client.Udc]
  have hduty : (Client.runBranch Client.wound).duty_cycle = 1.15 := by
    rw [Client.runBranch_duty]
    rw [show Client.wound.pr = (⟨1000, 0⟩ : PrState ℚ) from rfl,
        show Client.wound.Iref = (5 : ℚ) from rfl,
        show Client.wound.meas.I1_low = (5 : ℚ) from rfl,
        show Client.wound.Vgrid = (12 : ℚ) from rfl, hstep]
    norm_num [Client.Udc]
  exact ⟨rfl, rfl, hstep, hduty, by rw [hduty]; norm_num⟩
